import Mathlib

/-!
Verification development for the HealthCanvas biomarker analytics engine
(frontend/src/HealthCanvas.jsx).  The client-side analytics core — the
reference catalog `BIOMARKER_DEFINITIONS`, the classifier `getStatus`, the
trend analyzer `calculateTrend`, the pattern detector `detectPatterns`, the
score aggregator of `HealthScoreDashboard`, the goal-progress computation of
`GoalsTracker`, and the flagged/significant-change lists of
`VisitPreparation` — is embedded shallowly below.  Numeric values are
modelled as exact rationals, dates as integers (JavaScript compares them
through `new Date(...)` subtraction, a numeric total order).  JavaScript's
`Array.prototype.sort` is a stable sort and is modelled by
`List.insertionSort` (stable for the comparator relations used here).
-/

attribute [local semireducible] Rat.add Rat.mul Rat.sub Rat.inv Rat.ofScientific

/-- One biomarker observation: marker identifier, numeric value, date. -/
structure Observation where
  markerId : String
  value : ℚ
  date : ℤ
deriving DecidableEq

/-- Status tier returned by the classifier. -/
inductive Status where
  | optimal
  | normal
  | attention
  | critical
deriving DecidableEq

/-- One entry of the reference catalog.  Display-only fields of the source
(name, unit, description, influences, relatedMarkers, aliases,
higherIsBetter) are not consulted by any analytics computation and are
omitted from the embedding. -/
structure BiomarkerDef where
  category : String
  normalRange : ℚ × ℚ
  optimalRange : ℚ × ℚ
  criticalLow : ℚ
  criticalHigh : ℚ
deriving DecidableEq

/-- The static reference catalog `BIOMARKER_DEFINITIONS` (HealthCanvas.jsx
lines 234-293), as an association list in source order. -/
def BIOMARKER_DEFINITIONS : List (String × BiomarkerDef) := [
  ("glucose", ⟨"Metabolic", (70, 100), (72, 90), 54, 126⟩),
  ("hba1c", ⟨"Metabolic", (4.0, 5.6), (4.5, 5.2), 3.5, 6.5⟩),
  ("insulin", ⟨"Metabolic", (2.6, 24.9), (3, 10), 1, 30⟩),
  ("totalCholesterol", ⟨"Cardiovascular", (125, 200), (140, 180), 100, 240⟩),
  ("ldl", ⟨"Cardiovascular", (0, 100), (0, 70), 0, 160⟩),
  ("hdl", ⟨"Cardiovascular", (40, 100), (60, 100), 35, 120⟩),
  ("triglycerides", ⟨"Cardiovascular", (0, 150), (0, 100), 0, 500⟩),
  ("homocysteine", ⟨"Cardiovascular", (5, 15), (6, 10), 3, 20⟩),
  ("creatinine", ⟨"Kidney", (0.7, 1.3), (0.8, 1.1), 0.5, 1.5⟩),
  ("egfr", ⟨"Kidney", (90, 120), (100, 120), 60, 150⟩),
  ("bun", ⟨"Kidney", (7, 20), (10, 16), 5, 30⟩),
  ("uricAcid", ⟨"Kidney", (3.5, 7.2), (4.0, 6.0), 2.0, 9.0⟩),
  ("alt", ⟨"Liver", (7, 56), (10, 35), 5, 100⟩),
  ("ast", ⟨"Liver", (10, 40), (15, 30), 5, 80⟩),
  ("ggt", ⟨"Liver", (9, 48), (10, 30), 5, 100⟩),
  ("bilirubin", ⟨"Liver", (0.1, 1.2), (0.2, 0.8), 0, 2.0⟩),
  ("albumin", ⟨"Liver", (3.5, 5.5), (4.0, 5.0), 3.0, 6.0⟩),
  ("alp", ⟨"Liver", (44, 147), (50, 120), 30, 200⟩),
  ("tsh", ⟨"Thyroid", (0.4, 4.0), (1.0, 2.5), 0.1, 10.0⟩),
  ("freeT4", ⟨"Thyroid", (0.8, 1.8), (1.0, 1.5), 0.5, 2.5⟩),
  ("freeT3", ⟨"Thyroid", (2.0, 4.4), (2.5, 4.0), 1.5, 5.0⟩),
  ("crp", ⟨"Inflammation", (0, 3.0), (0, 1.0), 0, 10.0⟩),
  ("esr", ⟨"Inflammation", (0, 20), (0, 10), 0, 40⟩),
  ("vitaminD", ⟨"Nutrients", (30, 100), (40, 60), 20, 100⟩),
  ("vitaminB12", ⟨"Nutrients", (200, 900), (400, 700), 150, 1000⟩),
  ("folate", ⟨"Nutrients", (3.0, 17.0), (5.0, 15.0), 2.0, 20.0⟩),
  ("iron", ⟨"Nutrients", (60, 170), (70, 140), 40, 200⟩),
  ("ferritin", ⟨"Nutrients", (30, 300), (50, 150), 15, 400⟩),
  ("calcium", ⟨"Nutrients", (8.5, 10.5), (9.0, 10.0), 7.5, 11.5⟩),
  ("magnesium", ⟨"Nutrients", (1.7, 2.2), (1.9, 2.1), 1.4, 2.5⟩),
  ("zinc", ⟨"Nutrients", (60, 120), (70, 100), 50, 150⟩),
  ("hemoglobin", ⟨"Blood Count", (12.0, 17.5), (13.5, 16.0), 10.0, 18.5⟩),
  ("hematocrit", ⟨"Blood Count", (36, 50), (40, 46), 30, 55⟩),
  ("rbc", ⟨"Blood Count", (4.0, 5.5), (4.5, 5.2), 3.5, 6.0⟩),
  ("wbc", ⟨"Blood Count", (4.0, 11.0), (5.0, 9.0), 3.0, 15.0⟩),
  ("platelets", ⟨"Blood Count", (150, 400), (175, 350), 100, 500⟩),
  ("mcv", ⟨"Blood Count", (80, 100), (82, 96), 70, 110⟩),
  ("testosterone", ⟨"Hormones", (300, 1000), (500, 800), 200, 1200⟩),
  ("estradiol", ⟨"Hormones", (10, 40), (15, 30), 5, 60⟩),
  ("cortisol", ⟨"Hormones", (6, 23), (10, 18), 3, 30⟩),
  ("dheas", ⟨"Hormones", (100, 400), (150, 350), 50, 500⟩)]

/-- The category list `CATEGORIES` (line 295). -/
def CATEGORIES : List String :=
  ["Metabolic", "Cardiovascular", "Kidney", "Liver", "Thyroid",
   "Inflammation", "Nutrients", "Blood Count", "Hormones"]

/-- `BIOMARKER_DEFINITIONS[markerId]`: catalog lookup by identifier. -/
def lookupDef (markerId : String) : Option BiomarkerDef :=
  BIOMARKER_DEFINITIONS.lookup markerId

/-- `getStatus` (lines 301-308).  The `!def` guard of the source returns
`'normal'` when the marker has no catalog entry. -/
def getStatus (value : ℚ) (markerId : String) : Status :=
  match lookupDef markerId with
  | none => Status.normal
  | some d =>
    if value ≤ d.criticalLow ∨ value ≥ d.criticalHigh then Status.critical
    else if d.optimalRange.1 ≤ value ∧ value ≤ d.optimalRange.2 then Status.optimal
    else if d.normalRange.1 ≤ value ∧ value ≤ d.normalRange.2 then Status.normal
    else Status.attention

/-- Date comparison used by ascending sorts: `(a, b) => new Date(a.date) - new Date(b.date)`. -/
def dateLe (a b : Observation) : Prop := a.date ≤ b.date

instance : DecidableRel dateLe := fun a b => Int.decLe a.date b.date

/-- Date comparison used by descending sorts: `(a, b) => new Date(b.date) - new Date(a.date)`. -/
def dateGe (a b : Observation) : Prop := b.date ≤ a.date

instance : DecidableRel dateGe := fun a b => Int.decLe b.date a.date

/-- Stable sort by date ascending (JavaScript `sort((a, b) => new Date(a.date) - new Date(b.date))`). -/
def sortByDateAsc (l : List Observation) : List Observation :=
  l.insertionSort dateLe

/-- Stable sort by date descending (JavaScript `sort((a, b) => new Date(b.date) - new Date(a.date))`). -/
def sortByDateDesc (l : List Observation) : List Observation :=
  l.insertionSort dateGe

/-- The shared "latest" primitive: sort descending by date, take the head.
Every consumer of the source (`detectPatterns`, `HealthScoreDashboard`,
`GoalsTracker`, `VisitPreparation`) computes "latest" this way. -/
def latestByDate (l : List Observation) : Option Observation :=
  (sortByDateDesc l).head?

/-- Latest recorded value of a marker, `none` when the marker has no
observations (the `latest` map of `detectPatterns`, lines 339-344). -/
def latestVal (records : List Observation) (id : String) : Option ℚ :=
  (latestByDate (records.filter (fun r => r.markerId == id))).map (fun r => r.value)

example : getStatus 85 "glucose" = Status.optimal := by decide
example : getStatus 126 "glucose" = Status.critical := by decide
example : getStatus 101 "glucose" = Status.attention := by decide
example : getStatus 5 "not_a_marker" = Status.normal := by decide
example : latestVal [⟨"hdl", 50, 3⟩, ⟨"hdl", 42, 7⟩, ⟨"ldl", 90, 9⟩] "hdl" = some 42 := by decide

/-- Result of the trend analyzer.  The source returns the magnitude as the
string produced by `toFixed(1)`; it is modelled as the rounded rational. -/
structure Trend where
  direction : String
  change : ℚ
deriving DecidableEq

/-- JavaScript `x.toFixed(1)` on a finite number: round to the closest
multiple of 1/10, ties towards the larger value. -/
def toFixed1 (q : ℚ) : ℚ := (Rat.floor (q * 10 + 1/2) : ℚ) / 10

/-- `calculateTrend` (lines 323-332). -/
def calculateTrend (records : List Observation) : Trend :=
  if records.length < 2 then ⟨"stable", 0⟩ else
  let sorted := sortByDateAsc records
  let recent := sorted.drop (sorted.length - 3)
  let first := (recent.headD ⟨"", 0, 0⟩).value
  let lastv := (recent.getLastD ⟨"", 0, 0⟩).value
  let change := if first ≠ 0 then ((lastv - first) / first) * 100 else 0
  if |change| < 3 then ⟨"stable", 0⟩
  else ⟨if change > 0 then "up" else "down", toFixed1 |change|⟩

example : calculateTrend [⟨"glucose", 100, 0⟩, ⟨"glucose", 100, 1⟩, ⟨"glucose", 106, 2⟩] = ⟨"up", 6⟩ := by decide
example : calculateTrend [⟨"glucose", 100, 0⟩, ⟨"glucose", 101, 1⟩] = ⟨"stable", 0⟩ := by decide
example : calculateTrend [⟨"glucose", 100, 0⟩] = ⟨"stable", 0⟩ := by decide

/-- An emitted pattern.  The display-only `title` and `description` strings
of the source are omitted. -/
structure Pattern where
  type : String
  severity : String
  markers : List String
deriving DecidableEq

/-- JavaScript truthiness of a possibly-absent number: `undefined` and `0`
are falsy, every other (finite) number is truthy. -/
def truthy : Option ℚ → Bool
  | none => false
  | some v => decide (v ≠ 0)

/-- `latest.m > c` in JavaScript: `false` when the marker is absent
(`undefined > c` is `false`). -/
def gtLatest (o : Option ℚ) (c : ℚ) : Bool :=
  match o with
  | some v => decide (c < v)
  | none => false

/-- `latest.m && latest.m < c`: truthy presence check and-ed with a bound. -/
def truthyLt (o : Option ℚ) (c : ℚ) : Bool :=
  match o with
  | some v => decide (v ≠ 0) && decide (v < c)
  | none => false

/-- Number of true metabolic flags (lines 347-352):
`[glucose > 100, triglycerides > 150, hdl && hdl < 40, hba1c > 5.6].filter(Boolean).length`. -/
def metabolicFlags (records : List Observation) : ℕ :=
  [gtLatest (latestVal records "glucose") 100,
   gtLatest (latestVal records "triglycerides") 150,
   truthyLt (latestVal records "hdl") 40,
   gtLatest (latestVal records "hba1c") 5.6].countP id

/-- Involved-marker list of the metabolic pattern (line 360):
`['glucose', 'triglycerides', 'hdl', 'hba1c'].filter(m => latest[m])`. -/
def metabolicMarkers (records : List Observation) : List String :=
  ["glucose", "triglycerides", "hdl", "hba1c"].filter
    (fun m => truthy (latestVal records m))

/-- Iron-deficiency condition (line 365):
`latest.hemoglobin && latest.hemoglobin < 12 && latest.ferritin && latest.ferritin < 30`. -/
def ironCond (records : List Observation) : Bool :=
  truthyLt (latestVal records "hemoglobin") 12 && truthyLt (latestVal records "ferritin") 30

/-- Thyroid condition (line 376): `latest.tsh && (latest.tsh > 4 || latest.tsh < 0.4)`. -/
def thyroidCond (records : List Observation) : Bool :=
  match latestVal records "tsh" with
  | some v => decide (v ≠ 0) && (decide (v > 4) || decide (v < 0.4))
  | none => false

/-- Thyroid severity (line 379): `latest.tsh > 10 || latest.tsh < 0.1 ? 'critical' : 'attention'`. -/
def thyroidSeverity (records : List Observation) : String :=
  match latestVal records "tsh" with
  | some v => if v > 10 ∨ v < 0.1 then "critical" else "attention"
  | none => "attention"

/-- Involved-marker list of the thyroid pattern (line 382). -/
def thyroidMarkers (records : List Observation) : List String :=
  ["tsh", "freeT4", "freeT3"].filter (fun m => truthy (latestVal records m))

/-- Kidney condition (line 387): `latest.creatinine > 1.3 && latest.egfr && latest.egfr < 60`. -/
def kidneyCond (records : List Observation) : Bool :=
  gtLatest (latestVal records "creatinine") 1.3 && truthyLt (latestVal records "egfr") 60

/-- Involved-marker list of the kidney pattern (line 393). -/
def kidneyMarkers (records : List Observation) : List String :=
  ["creatinine", "egfr", "bun"].filter (fun m => truthy (latestVal records m))

/-- `detectPatterns` (lines 335-398): the four fixed rules, pushed onto the
result list in source order. -/
def detectPatterns (records : List Observation) : List Pattern :=
  (if 3 ≤ metabolicFlags records then
    [⟨"metabolic_syndrome", "attention", metabolicMarkers records⟩] else [])
  ++ (if ironCond records then
    [⟨"iron_deficiency", "attention", ["hemoglobin", "ferritin"]⟩] else [])
  ++ (if thyroidCond records then
    [⟨"thyroid", thyroidSeverity records, thyroidMarkers records⟩] else [])
  ++ (if kidneyCond records then
    [⟨"kidney", "attention", kidneyMarkers records⟩] else [])

example : detectPatterns [⟨"glucose", 110, 0⟩, ⟨"triglycerides", 160, 0⟩, ⟨"hdl", 35, 0⟩, ⟨"hba1c", 5.0, 0⟩]
    = [⟨"metabolic_syndrome", "attention", ["glucose", "triglycerides", "hdl", "hba1c"]⟩] := by decide
example : detectPatterns [⟨"glucose", 110, 0⟩, ⟨"triglycerides", 160, 0⟩, ⟨"hdl", 0, 0⟩, ⟨"hba1c", 5.7, 0⟩]
    = [⟨"metabolic_syndrome", "attention", ["glucose", "triglycerides", "hba1c"]⟩] := by decide
example : detectPatterns [⟨"glucose", 110, 0⟩, ⟨"triglycerides", 160, 0⟩, ⟨"hdl", 0, 0⟩]
    = [] := by decide

/-- Point value of a status (line 600): `{ optimal: 100, normal: 80,
attention: 50, critical: 20 }`.  The `|| 50` fallback of the source is
unreachable: the classifier only produces these four statuses, and their
point values are all truthy. -/
def statusPoints : Status → ℚ
  | Status.optimal => 100
  | Status.normal => 80
  | Status.attention => 50
  | Status.critical => 20

/-- Point values collected for one category (lines 590-604): for each
catalog marker of the category that has observations, the point value of
its classified latest observation. -/
def categoryMarkerPoints (records : List Observation) (category : String) : List ℚ :=
  (BIOMARKER_DEFINITIONS.filter (fun p => p.2.category == category)).filterMap
    (fun p => (latestVal records p.1).map (fun v => statusPoints (getStatus v p.1)))

/-- JavaScript `Math.round`: round half towards positive infinity. -/
def jsRound (q : ℚ) : ℤ := Rat.floor (q + 1/2)

/-- Score of one category (line 606): `count > 0 ? Math.round(totalScore / count) : null`. -/
def categoryScore (records : List Observation) (category : String) : Option ℤ :=
  let pts := categoryMarkerPoints records category
  if 0 < pts.length then some (jsRound (pts.sum / (pts.length : ℚ))) else none

/-- The `categoryScores` list (lines 590-607): categories whose score is
`null` are filtered out. -/
def categoryScores (records : List Observation) : List (String × ℤ) :=
  CATEGORIES.filterMap (fun c => (categoryScore records c).map (fun s => (c, s)))

/-- `overallScore` (line 609): rounded unweighted mean of the present
category scores, `null` when no category has data. -/
def overallScore (records : List Observation) : Option ℤ :=
  let cs := categoryScores records
  if 0 < cs.length then
    some (jsRound (((cs.map (fun p => (p.2 : ℚ))).sum) / (cs.length : ℚ)))
  else none

example : categoryScore [⟨"crp", 12, 0⟩, ⟨"esr", 5, 0⟩] "Inflammation" = some 60 := by decide
example : categoryScore [] "Metabolic" = none := by decide
example : overallScore [⟨"crp", 12, 0⟩, ⟨"esr", 5, 0⟩] = some 60 := by decide
example : overallScore [] = none := by decide

/-- Goal-progress computation of `GoalsTracker` (lines 999-1017).

JavaScript's `Array.prototype.sort` mutates its receiver, so after line
1002 (`const latest = markerRecords.sort((a, b) => new Date(b.date) -
new Date(a.date))[0]`) the array bound to `markerRecords` is sorted by
date DESCENDING; the `markerRecords[0]` read on line 1007 therefore
denotes the most recent observation, not the earliest.  The embedding
reproduces this aliasing: `markerRecords` below is the descending-sorted
list.  The `if (latest && g.targetValue)` guard keeps `progress = 0`
when there is no observation or the target value is falsy (zero). -/
def goalProgress (records : List Observation) (markerId : String) (targetValue : ℚ) : ℚ :=
  let markerRecords := sortByDateDesc (records.filter (fun r => r.markerId == markerId))
  match markerRecords.head? with
  | none => 0
  | some latest =>
    if targetValue ≠ 0 then
      let baseline := if 1 < markerRecords.length
        then (markerRecords.headD ⟨"", 0, 0⟩).value else latest.value
      let current := latest.value
      let target := targetValue
      let totalChange := |target - baseline|
      let actualChange := |current - baseline|
      let progress := if 0 < totalChange then min 100 (actualChange / totalChange * 100) else 0
      if (target < baseline ∧ baseline < current) ∨ (target > baseline ∧ current < baseline)
        then 0 else progress
    else 0

example : goalProgress [⟨"glucose", 100, 0⟩, ⟨"glucose", 85, 1⟩] "glucose" 70 = 0 := by decide

/-- A marker flagged by `VisitPreparation` (lines 1138-1140). -/
structure FlaggedMarker where
  id : String
  value : ℚ
  status : Status
deriving DecidableEq

/-- A significant change recorded by `VisitPreparation` (lines 1142-1148).
The stored percentage is the `toFixed(1)` rounding of the raw change. -/
structure SigChange where
  id : String
  change : ℚ
  direction : String
deriving DecidableEq

/-- The source's test `Math.abs(change) > 15` for
`change = ((latest - previous) / previous) * 100` under JavaScript number
semantics: when `previous = 0` the division yields `±Infinity` for
`latest ≠ 0` (so the test is true) and `NaN` for `latest = 0` (every
comparison with `NaN` is false). -/
def sigChangeTest (latest previous : ℚ) : Bool :=
  if previous = 0 then decide (latest ≠ 0)
  else decide (15 < |((latest - previous) / previous) * 100|)

/-- Raw percent change pushed by `VisitPreparation`, under the convention
that the `previous = 0` cases (which produce `±Infinity`/`NaN` in
JavaScript) are mapped to `0`; `sigChangeTest` decides membership so the
convention only affects the stored magnitude in those degenerate cases. -/
def sigChangeValue (latest previous : ℚ) : ℚ :=
  if previous = 0 then 0 else ((latest - previous) / previous) * 100

/-- `flaggedMarkers` of `VisitPreparation` (lines 1131-1140): each catalog
marker, in catalog order, whose latest observation classifies as
`attention` or `critical`. -/
def flaggedMarkers (records : List Observation) : List FlaggedMarker :=
  BIOMARKER_DEFINITIONS.filterMap (fun p =>
    (latestByDate (records.filter (fun r => r.markerId == p.1))).bind (fun latest =>
      let status := getStatus latest.value p.1
      if status = Status.attention ∨ status = Status.critical
        then some ⟨p.1, latest.value, status⟩ else none))

/-- `significantChanges` of `VisitPreparation` (lines 1142-1148): each
catalog marker with at least two observations whose latest-to-previous
change exceeds 15 percent in absolute value. -/
def significantChanges (records : List Observation) : List SigChange :=
  BIOMARKER_DEFINITIONS.filterMap (fun p =>
    match sortByDateDesc (records.filter (fun r => r.markerId == p.1)) with
    | latest :: previous :: _ =>
      if sigChangeTest latest.value previous.value then
        some ⟨p.1, toFixed1 (sigChangeValue latest.value previous.value),
              if 0 < sigChangeValue latest.value previous.value then "increased" else "decreased"⟩
      else none
    | _ => none)

example : (flaggedMarkers [⟨"glucose", 101, 0⟩, ⟨"hdl", 62, 0⟩]).map (fun f => f.id) = ["glucose"] := by decide
example : (significantChanges [⟨"glucose", 100, 0⟩, ⟨"glucose", 120, 1⟩]).map (fun s => s.id) = ["glucose"] := by decide
example : (significantChanges [⟨"glucose", 100, 0⟩, ⟨"glucose", 110, 1⟩]) = [] := by decide

/-- The Goal Tracker algorithm as the specification states it (§4.5):
`baseline` is the EARLIEST observation by date when at least two
observations exist, else the latest; `progress = totalChange > 0 ?
min(100, actualChange / totalChange * 100) : 0` with the wrong-direction
guard.  Kept separate from `goalProgress` (the code) for comparison. -/
def goalProgressSpec (records : List Observation) (markerId : String) (targetValue : ℚ) : ℚ :=
  let markerRecords := records.filter (fun r => r.markerId == markerId)
  match latestByDate markerRecords with
  | none => 0
  | some latest =>
    let baseline := if 1 < markerRecords.length
      then ((sortByDateAsc markerRecords).headD ⟨"", 0, 0⟩).value else latest.value
    let totalChange := |targetValue - baseline|
    let actualChange := |latest.value - baseline|
    let progress := if 0 < totalChange then min 100 (actualChange / totalChange * 100) else 0
    if (targetValue < baseline ∧ baseline < latest.value) ∨
       (targetValue > baseline ∧ latest.value < baseline)
      then 0 else progress

/-- The code's goal progress is identically zero: the in-place descending
sort on line 1002 aliases `markerRecords`, so the `markerRecords[0]` read
as "baseline" on line 1007 is the latest observation itself; hence
`actualChange = 0` and every branch yields `0`. -/
theorem goalProgress_eq_zero (records : List Observation) (markerId : String) (t : ℚ) :
    goalProgress records markerId t = 0 := by
  simp only [goalProgress]
  cases hl : sortByDateDesc (records.filter (fun r => r.markerId == markerId)) with
  | nil => rfl
  | cons a as =>
    simp only [List.head?_cons, List.headD_cons, List.length_cons, ite_self]
    split
    · simp only [sub_self, abs_zero, zero_div, zero_mul, lt_self_iff_false, and_false,
        or_self, if_false]
      split
      · exact min_eq_right (by norm_num)
      · rfl
    · rfl

/-- Claim C1 (code bug).  On the spec's own worked example — observations
100 (earlier) and 85 (later), target 70 — the spec's formula yields 50,
but the code yields 0: the in-place descending sort makes the
`markerRecords[0]` "baseline" the latest value, so progress never moves. -/
theorem claim_C1_goal_progress_bug :
    goalProgressSpec [⟨"glucose", 100, 0⟩, ⟨"glucose", 85, 1⟩] "glucose" 70 = 50 ∧
    goalProgress [⟨"glucose", 100, 0⟩, ⟨"glucose", 85, 1⟩] "glucose" 70 = 0 := by
  constructor
  · decide
  · exact goalProgress_eq_zero _ _ _

/-- Spec-side earliest recorded value of a marker (the "Baseline" of the
spec's glossary): sort ascending by date, take the head. -/
def earliestVal (records : List Observation) (id : String) : Option ℚ :=
  ((sortByDateAsc (records.filter (fun r => r.markerId == id))).head?).map (fun r => r.value)

/-- Claim C8: movement in the wrong direction (target below baseline but
latest above it, or target above baseline but latest below it) reports
progress 0.  This holds — degenerately, since `goalProgress` is
identically 0 (see `goalProgress_eq_zero`). -/
theorem claim_C8_wrong_direction :
    ∀ (records : List Observation) (id : String) (target baseline current : ℚ),
      earliestVal records id = some baseline →
      latestVal records id = some current →
      ((target < baseline ∧ current > baseline) ∨ (target > baseline ∧ current < baseline)) →
      goalProgress records id target = 0 := by
  intro records id target b c _ _ _
  exact goalProgress_eq_zero records id target

/-- Witness for C8 at the spec's example: baseline 100, target 70, latest 110. -/
theorem claim_C8_wrong_direction_witness :
    earliestVal [⟨"glucose", 100, 0⟩, ⟨"glucose", 110, 1⟩] "glucose" = some 100 ∧
    latestVal [⟨"glucose", 100, 0⟩, ⟨"glucose", 110, 1⟩] "glucose" = some 110 ∧
    ((70 : ℚ) < 100 ∧ (110 : ℚ) > 100) ∧
    goalProgress [⟨"glucose", 100, 0⟩, ⟨"glucose", 110, 1⟩] "glucose" 70 = 0 :=
  ⟨by decide, by decide, ⟨by norm_num, by norm_num⟩,
   claim_C8_wrong_direction _ _ 70 100 110 (by decide) (by decide)
     (Or.inl ⟨by norm_num, by norm_num⟩)⟩

/-- Claim C2 (code bug): for a marker identifier with no catalog entry the
classifier silently returns `normal` — the very behavior the claim (and
spec §7/§9) forbids. -/
theorem claim_C2_unknown_marker_normal :
    lookupDef "serumCopper" = none ∧ getStatus 50 "serumCopper" = Status.normal := by
  exact ⟨by decide, by decide⟩

/-- Claim C9: every catalog entry satisfies
`criticalLow ≤ normalLow ≤ optimalLow ≤ optimalHigh ≤ normalHigh ≤ criticalHigh`. -/
theorem claim_C9_catalog_ordered :
    ∀ p ∈ BIOMARKER_DEFINITIONS,
      p.2.criticalLow ≤ p.2.normalRange.1 ∧ p.2.normalRange.1 ≤ p.2.optimalRange.1 ∧
      p.2.optimalRange.1 ≤ p.2.optimalRange.2 ∧ p.2.optimalRange.2 ≤ p.2.normalRange.2 ∧
      p.2.normalRange.2 ≤ p.2.criticalHigh := by decide

/-- Witness for C9 at the glucose entry. -/
theorem claim_C9_catalog_ordered_witness :
    ("glucose", (⟨"Metabolic", (70, 100), (72, 90), 54, 126⟩ : BiomarkerDef)) ∈
      BIOMARKER_DEFINITIONS ∧
    ((54 : ℚ) ≤ 70 ∧ (70 : ℚ) ≤ 72 ∧ (72 : ℚ) ≤ 90 ∧ (90 : ℚ) ≤ 100 ∧ (100 : ℚ) ≤ 126) :=
  ⟨by decide, claim_C9_catalog_ordered
    ("glucose", ⟨"Metabolic", (70, 100), (72, 90), 54, 126⟩) (by decide)⟩

/-- Claim C3: classifier precedence and boundary inclusivity, for every
catalog definition and every value. -/
theorem claim_C3_classifier_precedence :
    ∀ (id : String) (d : BiomarkerDef), lookupDef id = some d → ∀ v : ℚ,
      ((v ≤ d.criticalLow ∨ v ≥ d.criticalHigh) → getStatus v id = Status.critical) ∧
      (¬(v ≤ d.criticalLow ∨ v ≥ d.criticalHigh) →
        (d.optimalRange.1 ≤ v ∧ v ≤ d.optimalRange.2) → getStatus v id = Status.optimal) ∧
      (¬(v ≤ d.criticalLow ∨ v ≥ d.criticalHigh) →
        ¬(d.optimalRange.1 ≤ v ∧ v ≤ d.optimalRange.2) →
        (d.normalRange.1 ≤ v ∧ v ≤ d.normalRange.2) → getStatus v id = Status.normal) ∧
      (¬(v ≤ d.criticalLow ∨ v ≥ d.criticalHigh) →
        ¬(d.optimalRange.1 ≤ v ∧ v ≤ d.optimalRange.2) →
        ¬(d.normalRange.1 ≤ v ∧ v ≤ d.normalRange.2) → getStatus v id = Status.attention) := by
  intro id d h v
  simp only [getStatus, h]
  refine ⟨fun hc => by rw [if_pos hc],
          fun hc ho => by rw [if_neg hc, if_pos ho],
          fun hc ho hn => by rw [if_neg hc, if_neg ho, if_pos hn],
          fun hc ho hn => by rw [if_neg hc, if_neg ho, if_neg hn]⟩

/-- Witness for C3: the critical boundary is inclusive at glucose's
`criticalHigh = 126`. -/
theorem claim_C3_classifier_precedence_witness :
    lookupDef "glucose" = some ⟨"Metabolic", (70, 100), (72, 90), 54, 126⟩ ∧
    getStatus 126 "glucose" = Status.critical :=
  ⟨by decide,
   (claim_C3_classifier_precedence "glucose" ⟨"Metabolic", (70, 100), (72, 90), 54, 126⟩
     (by decide) 126).1 (Or.inr (by norm_num))⟩

/-- The Trend Analyzer contract as claim C4 states it: sort ascending,
take the trailing window of at most 3 observations (phrased here through
`reverse`/`take`/`reverse`), compare first and last of the window,
threshold 3 percent, one-decimal rounding. -/
def trendSpec (records : List Observation) : Trend :=
  if records.length < 2 then ⟨"stable", 0⟩ else
  let w := ((sortByDateAsc records).reverse.take 3).reverse
  let first := (w.headD ⟨"", 0, 0⟩).value
  let lastv := (w.getLastD ⟨"", 0, 0⟩).value
  let change := if first = 0 then 0 else (lastv - first) / first * 100
  if |change| < 3 then ⟨"stable", 0⟩
  else ⟨if 0 < change then "up" else "down", toFixed1 |change|⟩

/-- Claim C4: the code's trend computation satisfies the stated contract,
including the two worked examples. -/
theorem claim_C4_trend_contract :
    (∀ records, calculateTrend records = trendSpec records) ∧
    calculateTrend [⟨"glucose", 100, 0⟩, ⟨"glucose", 100, 1⟩, ⟨"glucose", 106, 2⟩] = ⟨"up", 6⟩ ∧
    calculateTrend [⟨"glucose", 100, 0⟩, ⟨"glucose", 101, 1⟩] = ⟨"stable", 0⟩ := by
  refine ⟨fun records => ?_, by decide, by decide⟩
  have hw : ((sortByDateAsc records).reverse.take 3).reverse
      = (sortByDateAsc records).drop ((sortByDateAsc records).length - 3) := by
    rw [← List.rtake_eq_reverse_take_reverse, List.rtake]
  simp only [calculateTrend, trendSpec, hw, ite_not]

/-- Exact (unrounded) category average, as claim C5 literally states the
category score: the mean of the point values of the classified latest
observations over the category's markers with data. -/
def categoryAvgClaim (records : List Observation) (category : String) : Option ℚ :=
  let pts := categoryMarkerPoints records category
  if 0 < pts.length then some (pts.sum / (pts.length : ℚ)) else none

/-- Thyroid input whose category average is not an integer: tsh optimal
(100 points), freeT4 normal (80), freeT3 normal (80). -/
def thyroidExample : List Observation := [⟨"tsh", 2, 0⟩, ⟨"freeT4", 1.7, 0⟩, ⟨"freeT3", 4.2, 0⟩]

/-- Claim C5 counterexample: the code's category score is the rounded
average (87), not the average itself (260/3), so "score is the average"
fails as stated. -/
theorem claim_C5_counterexample :
    categoryScore thyroidExample "Thyroid" = some 87 ∧
    categoryAvgClaim thyroidExample "Thyroid" = some (260 / 3) ∧
    ((87 : ℚ) ≠ 260 / 3) := by decide

/-- A descending sort is empty exactly when its input is. -/
theorem sortByDateDesc_eq_nil_iff (l : List Observation) : sortByDateDesc l = [] ↔ l = [] := by
  constructor
  · intro h
    have hlen := (List.perm_insertionSort dateGe l).length_eq
    rw [sortByDateDesc] at h
    rw [h] at hlen
    exact List.length_eq_zero.mp hlen.symm
  · intro h
    rw [h]
    rfl

/-- A marker has a latest value exactly when it has observations. -/
theorem latestVal_eq_none_iff (records : List Observation) (id : String) :
    latestVal records id = none ↔ records.filter (fun r => r.markerId == id) = [] := by
  rw [latestVal, latestByDate, Option.map_eq_none', List.head?_eq_none_iff,
    sortByDateDesc_eq_nil_iff]

/-- Claim C5 amended: the category score is the JavaScript-rounded
(`Math.round`) average of the point values; a category none of whose
markers has data is omitted (score `null`); the overall score is likewise
`null` exactly when no category has data; and the critical-plus-optimal
example averages to 60. -/
theorem claim_C5_amended :
    (∀ records category, categoryScore records category =
      (categoryAvgClaim records category).map jsRound) ∧
    (∀ records category, categoryScore records category = none ↔
      ∀ p ∈ BIOMARKER_DEFINITIONS, p.2.category = category →
        records.filter (fun r => r.markerId == p.1) = []) ∧
    (∀ records, overallScore records = none ↔ categoryScores records = []) ∧
    categoryScore [⟨"crp", 12, 0⟩, ⟨"esr", 5, 0⟩] "Inflammation" = some 60 := by
  refine ⟨fun records category => ?_, fun records category => ?_, fun records => ?_, by decide⟩
  · simp only [categoryScore, categoryAvgClaim]
    split
    · rfl
    · rfl
  · simp only [categoryScore]
    constructor
    · intro h
      split at h
      · exact absurd h (by simp)
      · rename_i hlen
        have hnil : categoryMarkerPoints records category = [] :=
          List.length_eq_zero.mp (by omega)
        rw [categoryMarkerPoints] at hnil
        intro p hp hcat
        have hmem : p ∈ BIOMARKER_DEFINITIONS.filter (fun q => q.2.category == category) :=
          List.mem_filter.mpr ⟨hp, by simp [hcat]⟩
        have hz := List.filterMap_eq_nil_iff.mp hnil p hmem
        rw [Option.map_eq_none'] at hz
        exact (latestVal_eq_none_iff records p.1).mp hz
    · intro h
      have hnil : categoryMarkerPoints records category = [] := by
        rw [categoryMarkerPoints, List.filterMap_eq_nil_iff]
        intro p hp
        rw [Option.map_eq_none', latestVal_eq_none_iff]
        rcases List.mem_filter.mp hp with ⟨hmem, hcat⟩
        exact h p hmem (by simpa using hcat)
      simp [hnil]
  · simp only [overallScore]
    constructor
    · intro h
      split at h
      · exact absurd h (by simp)
      · rename_i hlen
        exact List.length_eq_zero.mp (by omega)
    · intro h
      simp [h]

/-- Witness for the amended C5: the rounding law at a one-marker input and
the omission law at the empty input. -/
theorem claim_C5_amended_witness :
    categoryScore [⟨"crp", 12, 0⟩] "Inflammation" =
      (categoryAvgClaim [⟨"crp", 12, 0⟩] "Inflammation").map jsRound ∧
    categoryScore [] "Metabolic" = none :=
  ⟨claim_C5_amended.1 _ _, (claim_C5_amended.2.1 [] "Metabolic").mpr (by decide)⟩

/-- Membership in a conditional singleton. -/
theorem mem_ite_singleton {α : Type} {c : Prop} [Decidable c] {x p : α} :
    p ∈ (if c then [x] else []) ↔ c ∧ p = x := by
  split
  · rename_i h
    simp [h]
  · rename_i h
    simp [h]

/-- Exactly which patterns `detectPatterns` emits. -/
theorem mem_detectPatterns (records : List Observation) (p : Pattern) :
    p ∈ detectPatterns records ↔
      (3 ≤ metabolicFlags records ∧
        p = ⟨"metabolic_syndrome", "attention", metabolicMarkers records⟩) ∨
      (ironCond records = true ∧ p = ⟨"iron_deficiency", "attention", ["hemoglobin", "ferritin"]⟩) ∨
      (thyroidCond records = true ∧ p = ⟨"thyroid", thyroidSeverity records, thyroidMarkers records⟩) ∨
      (kidneyCond records = true ∧ p = ⟨"kidney", "attention", kidneyMarkers records⟩) := by
  simp only [detectPatterns, List.mem_append, mem_ite_singleton]
  tauto

/-- Claim C6's reading of the hdl condition: mere presence of data (any
latest value) with value below 40. -/
def metabolicFlagsClaim (records : List Observation) : ℕ :=
  [gtLatest (latestVal records "glucose") 100,
   gtLatest (latestVal records "triglycerides") 150,
   (match latestVal records "hdl" with
    | some v => decide (v < 40)
    | none => false),
   gtLatest (latestVal records "hba1c") 5.6].countP id

/-- Claim C6's reading of the involved-marker list: the rule markers that
have any data at all. -/
def hasData (records : List Observation) (id : String) : Bool :=
  !(records.filter (fun r => r.markerId == id)).isEmpty

/-- Involved-marker list as claim C6 states it. -/
def metabolicMarkersClaim (records : List Observation) : List String :=
  ["glucose", "triglycerides", "hdl", "hba1c"].filter (hasData records)

/-- Input separating the claim from the code: latest hdl is 0. -/
def metabolicCounterexample : List Observation :=
  [⟨"glucose", 110, 0⟩, ⟨"triglycerides", 160, 0⟩, ⟨"hdl", 0, 0⟩]

/-- Claim C6 counterexample.  With latest hdl = 0 the claim's flag count is
3 (hdl is present and 0 < 40), so the claim demands a metabolic pattern,
but the code's truthiness guard (`latest.hdl && ...`) drops the hdl flag
and emits nothing.  Adding hba1c = 5.7 makes the code emit a pattern whose
involved list omits hdl even though hdl has data, against the claim's
involved-list condition. -/
theorem claim_C6_counterexample :
    3 ≤ metabolicFlagsClaim metabolicCounterexample ∧
    detectPatterns metabolicCounterexample = [] ∧
    metabolicMarkersClaim metabolicCounterexample = ["glucose", "triglycerides", "hdl"] ∧
    detectPatterns (metabolicCounterexample ++ [⟨"hba1c", 5.7, 0⟩])
      = [⟨"metabolic_syndrome", "attention", ["glucose", "triglycerides", "hba1c"]⟩] := by decide

/-- Claim C6 amended: a metabolic pattern (severity `attention`) is emitted
exactly when at least 3 of {latest glucose > 100, latest triglycerides >
150, latest hdl truthy (nonzero) and < 40, latest hba1c > 5.6} hold, and
its involved-marker list is the subset of {glucose, triglycerides, hdl,
hba1c} whose latest value is truthy (present and nonzero). -/
theorem claim_C6_amended :
    ∀ records : List Observation,
      ((∃ p ∈ detectPatterns records, p.type = "metabolic_syndrome") ↔
        3 ≤ metabolicFlags records) ∧
      ∀ p ∈ detectPatterns records, p.type = "metabolic_syndrome" →
        p.severity = "attention" ∧ p.markers = metabolicMarkers records := by
  intro records
  constructor
  · constructor
    · rintro ⟨p, hp, htype⟩
      rcases (mem_detectPatterns records p).mp hp with ⟨h, rfl⟩ | ⟨h, rfl⟩ | ⟨h, rfl⟩ | ⟨h, rfl⟩
      · exact h
      · exact absurd (show ("iron_deficiency" : String) = "metabolic_syndrome" from htype) (by decide)
      · exact absurd (show ("thyroid" : String) = "metabolic_syndrome" from htype) (by decide)
      · exact absurd (show ("kidney" : String) = "metabolic_syndrome" from htype) (by decide)
    · intro h
      exact ⟨⟨"metabolic_syndrome", "attention", metabolicMarkers records⟩,
        (mem_detectPatterns records _).mpr (Or.inl ⟨h, rfl⟩), rfl⟩
  · intro p hp htype
    rcases (mem_detectPatterns records p).mp hp with ⟨h, rfl⟩ | ⟨h, rfl⟩ | ⟨h, rfl⟩ | ⟨h, rfl⟩
    · exact ⟨rfl, rfl⟩
    · exact absurd (show ("iron_deficiency" : String) = "metabolic_syndrome" from htype) (by decide)
    · exact absurd (show ("thyroid" : String) = "metabolic_syndrome" from htype) (by decide)
    · exact absurd (show ("kidney" : String) = "metabolic_syndrome" from htype) (by decide)

/-- The spec's worked metabolic example: glucose 110, triglycerides 160,
hdl 35, hba1c 5.0. -/
def metabolicWitnessRecords : List Observation :=
  [⟨"glucose", 110, 0⟩, ⟨"triglycerides", 160, 0⟩, ⟨"hdl", 35, 0⟩, ⟨"hba1c", 5.0, 0⟩]

/-- Witness for the amended C6 at the spec's worked example. -/
theorem claim_C6_amended_witness :
    Pattern.mk "metabolic_syndrome" "attention" ["glucose", "triglycerides", "hdl", "hba1c"]
      ∈ detectPatterns metabolicWitnessRecords ∧
    ("attention" : String) = "attention" ∧
    ["glucose", "triglycerides", "hdl", "hba1c"] = metabolicMarkers metabolicWitnessRecords :=
  ⟨by decide,
   ((claim_C6_amended metabolicWitnessRecords).2
     (Pattern.mk "metabolic_syndrome" "attention" ["glucose", "triglycerides", "hdl", "hba1c"])
     (by decide) rfl).1,
   ((claim_C6_amended metabolicWitnessRecords).2
     (Pattern.mk "metabolic_syndrome" "attention" ["glucose", "triglycerides", "hdl", "hba1c"])
     (by decide) rfl).2⟩

/-- An association-list lookup succeeds exactly when the key occurs. -/
theorem lookup_isSome_iff {β : Type} (l : List (String × β)) (a : String) :
    (l.lookup a).isSome ↔ ∃ b, (a, b) ∈ l := by
  induction l with
  | nil => simp
  | cons p t ih =>
    rcases p with ⟨k, v⟩
    by_cases h : a = k
    · subst h
      constructor
      · intro _
        exact ⟨v, List.mem_cons_self _ _⟩
      · intro _
        simp [List.lookup]
    · have hbeq : (a == k) = false := beq_eq_false_iff_ne.mpr h
      constructor
      · intro hs
        simp only [List.lookup, hbeq] at hs
        rcases ih.mp hs with ⟨b, hb⟩
        exact ⟨b, List.mem_cons_of_mem _ hb⟩
      · rintro ⟨b, hb⟩
        rcases List.mem_cons.mp hb with heq | hmem
        · exact absurd (congrArg Prod.fst heq) h
        · simp only [List.lookup, hbeq]
          exact ih.mpr ⟨b, hmem⟩

/-- A successful association-list lookup exhibits a member. -/
theorem mem_of_lookup_eq_some {β : Type} {l : List (String × β)} {a : String} {b : β}
    (h : l.lookup a = some b) : (a, b) ∈ l := by
  induction l with
  | nil => simp [List.lookup] at h
  | cons p t ih =>
    rcases p with ⟨k, v⟩
    by_cases hk : a = k
    · subst hk
      have hbeq : (a == a) = true := beq_self_eq_true a
      simp only [List.lookup, hbeq, Option.some.injEq] at h
      subst h
      exact List.mem_cons_self _ _
    · have hbeq : (a == k) = false := beq_eq_false_iff_ne.mpr hk
      simp only [List.lookup, hbeq] at h
      exact List.mem_cons_of_mem _ (ih h)

/-- The significant-change predicate exactly as claim C7 writes it, read
over the rationals (where division by zero yields zero). -/
def sigChangeClaim (latest previous : ℚ) : Prop :=
  |latest - previous| / previous * 100 > 15

/-- Two observations whose earlier value is zero. -/
def zeroPrevRecords : List Observation := [⟨"glucose", 0, 0⟩, ⟨"glucose", 50, 1⟩]

/-- Claim C7 counterexample: with previous value 0 and latest 50,
JavaScript's division by zero produces `Infinity`, so the code records a
significant change for glucose; the claim's formula, which cannot exceed
15 at `previous = 0`, says it should not. -/
theorem claim_C7_counterexample :
    sortByDateDesc zeroPrevRecords = [⟨"glucose", 50, 1⟩, ⟨"glucose", 0, 0⟩] ∧
    (significantChanges zeroPrevRecords).map (fun s => s.id) = ["glucose"] ∧
    ¬ sigChangeClaim 50 0 := by
  refine ⟨by decide, by decide, ?_⟩
  simp only [sigChangeClaim]
  norm_num

/-- Claim C7 amended: `flaggedMarkers` contains exactly the catalog markers
whose latest observation classifies `attention` or `critical`, and
`significantChanges` contains exactly the catalog markers with at least two
observations whose latest-to-previous percent change passes the code's
15-percent test (`|((latest − previous)/previous)·100| > 15` for
`previous ≠ 0`; for `previous = 0` the JavaScript division overflows to
`±Infinity`, which counts as significant exactly when `latest ≠ 0`). -/
theorem claim_C7_amended :
    ∀ (records : List Observation) (id : String),
      ((∃ f ∈ flaggedMarkers records, f.id = id) ↔
        (lookupDef id).isSome ∧
        ∃ r, latestByDate (records.filter (fun x => x.markerId == id)) = some r ∧
          (getStatus r.value id = Status.attention ∨ getStatus r.value id = Status.critical)) ∧
      ((∃ s ∈ significantChanges records, s.id = id) ↔
        (lookupDef id).isSome ∧
        ∃ l p rest, sortByDateDesc (records.filter (fun x => x.markerId == id)) = l :: p :: rest ∧
          sigChangeTest l.value p.value = true) := by
  intro records id
  constructor
  · constructor
    · rintro ⟨f, hf, rfl⟩
      rcases List.mem_filterMap.mp hf with ⟨q, hq, hfq⟩
      rcases hlat : latestByDate (records.filter (fun x => x.markerId == q.1)) with _ | latest
      · rw [hlat] at hfq
        simp at hfq
      · rw [hlat] at hfq
        simp only [Option.some_bind] at hfq
        split at hfq
        · rename_i hcond
          rcases Option.some.inj hfq with rfl
          refine ⟨?_, latest, hlat, hcond⟩
          exact (lookup_isSome_iff _ _).mpr ⟨q.2, hq⟩
        · exact absurd hfq (by simp)
    · rintro ⟨hsome, r, hlat, hcond⟩
      rcases hd : lookupDef id with _ | d
      · rw [hd] at hsome
        simp at hsome
      · refine ⟨⟨id, r.value, getStatus r.value id⟩, ?_, rfl⟩
        refine List.mem_filterMap.mpr ⟨(id, d), mem_of_lookup_eq_some hd, ?_⟩
        rw [hlat]
        simp [hcond]
  · constructor
    · rintro ⟨s, hs, rfl⟩
      rcases List.mem_filterMap.mp hs with ⟨q, hq, hsq⟩
      rcases hsort : sortByDateDesc (records.filter (fun x => x.markerId == q.1)) with
        _ | ⟨l1, _ | ⟨l2, rest⟩⟩
      · rw [hsort] at hsq
        simp at hsq
      · rw [hsort] at hsq
        simp at hsq
      · rw [hsort] at hsq
        split at hsq
        · rename_i lat prev tl heq
          injection heq with h1 hrest
          injection hrest with h2 h3
          subst h1
          subst h2
          subst h3
          split at hsq
          · rename_i htest
            rcases Option.some.inj hsq with rfl
            exact ⟨(lookup_isSome_iff _ _).mpr ⟨q.2, hq⟩, l1, l2, rest, hsort, htest⟩
          · exact absurd hsq (by simp)
        · rename_i hno
          exact absurd rfl (hno l1 l2 rest)
    · rintro ⟨hsome, l1, l2, rest, hsort, htest⟩
      rcases hd : lookupDef id with _ | d
      · rw [hd] at hsome
        simp at hsome
      · refine ⟨⟨id, toFixed1 (sigChangeValue l1.value l2.value),
          if 0 < sigChangeValue l1.value l2.value then "increased" else "decreased"⟩, ?_, rfl⟩
        refine List.mem_filterMap.mpr ⟨(id, d), mem_of_lookup_eq_some hd, ?_⟩
        rw [hsort]
        simp [htest]

/-- Witness for the amended C7: an attention-status marker is flagged, and
a 20-percent jump is a significant change. -/
theorem claim_C7_amended_witness :
    (∃ f ∈ flaggedMarkers [⟨"glucose", 101, 0⟩], f.id = "glucose") ∧
    (∃ s ∈ significantChanges [⟨"glucose", 100, 0⟩, ⟨"glucose", 120, 1⟩], s.id = "glucose") :=
  ⟨(claim_C7_amended [⟨"glucose", 101, 0⟩] "glucose").1.mpr
    ⟨by decide, ⟨"glucose", 101, 0⟩, by decide, Or.inl (by decide)⟩,
   (claim_C7_amended [⟨"glucose", 100, 0⟩, ⟨"glucose", 120, 1⟩] "glucose").2.mpr
    ⟨by decide, ⟨"glucose", 120, 1⟩, ⟨"glucose", 100, 0⟩, [], by decide, by decide⟩⟩

/-- Claim C10: the pattern detector tests marker presence by JavaScript
truthiness of the latest value, so a latest value of 0 is treated as
absent.  With latest hdl = 0 the metabolic hdl flag is off and hdl never
appears in an emitted pattern's involved-marker list; with latest tsh = 0
no thyroid pattern is emitted; with latest hemoglobin = 0 or latest
ferritin = 0 no iron-deficiency pattern is emitted. -/
theorem claim_C10_truthiness :
    ∀ records : List Observation,
      (latestVal records "hdl" = some 0 →
        truthyLt (latestVal records "hdl") 40 = false ∧
        ∀ p ∈ detectPatterns records, "hdl" ∉ p.markers) ∧
      (latestVal records "tsh" = some 0 →
        ∀ p ∈ detectPatterns records, p.type ≠ "thyroid") ∧
      ((latestVal records "hemoglobin" = some 0 ∨ latestVal records "ferritin" = some 0) →
        ∀ p ∈ detectPatterns records, p.type ≠ "iron_deficiency") := by
  intro records
  refine ⟨fun h0 => ⟨by simp [truthyLt, h0], fun p hp => ?_⟩,
          fun h0 p hp => ?_, fun h0 p hp => ?_⟩
  · rcases (mem_detectPatterns records p).mp hp with ⟨h, rfl⟩ | ⟨h, rfl⟩ | ⟨h, rfl⟩ | ⟨h, rfl⟩
    · simp [metabolicMarkers, List.mem_filter, truthy, h0]
    · decide
    · simp [thyroidMarkers, List.mem_filter]
    · simp [kidneyMarkers, List.mem_filter]
  · rcases (mem_detectPatterns records p).mp hp with ⟨h, rfl⟩ | ⟨h, rfl⟩ | ⟨h, rfl⟩ | ⟨h, rfl⟩
    · intro hc
      exact absurd (show ("metabolic_syndrome" : String) = "thyroid" from hc) (by decide)
    · intro hc
      exact absurd (show ("iron_deficiency" : String) = "thyroid" from hc) (by decide)
    · rw [thyroidCond, h0] at h
      simp at h
    · intro hc
      exact absurd (show ("kidney" : String) = "thyroid" from hc) (by decide)
  · rcases (mem_detectPatterns records p).mp hp with ⟨h, rfl⟩ | ⟨h, rfl⟩ | ⟨h, rfl⟩ | ⟨h, rfl⟩
    · intro hc
      exact absurd (show ("metabolic_syndrome" : String) = "iron_deficiency" from hc) (by decide)
    · rcases h0 with h0 | h0 <;>
        · rw [ironCond, h0] at h
          simp [truthyLt] at h
    · intro hc
      exact absurd (show ("thyroid" : String) = "iron_deficiency" from hc) (by decide)
    · intro hc
      exact absurd (show ("kidney" : String) = "iron_deficiency" from hc) (by decide)

/-- Three markers whose only observation is 0. -/
def zeroLatestRecords : List Observation :=
  [⟨"hdl", 0, 0⟩, ⟨"tsh", 0, 0⟩, ⟨"hemoglobin", 0, 0⟩]

/-- Witness for C10: zero-valued hdl yields a false hdl flag, and no
pattern at all is emitted over the zero-valued records. -/
theorem claim_C10_truthiness_witness :
    latestVal zeroLatestRecords "hdl" = some 0 ∧
    truthyLt (latestVal zeroLatestRecords "hdl") 40 = false ∧
    detectPatterns zeroLatestRecords = [] :=
  ⟨by decide, ((claim_C10_truthiness zeroLatestRecords).1 (by decide)).1, by decide⟩
